import Mathlib

/-!
Shallow embedding of `langchain/vectorstores/numpy.py` (`NumpyVectorStore`).

Modelling conventions:
* Vector components (numpy `float32` values) are modelled as exact rationals
  `ℚ`; the properties verified here concern ordering, lengths, control flow
  and error behaviour, none of which depend on floating-point rounding.
* A numpy 2-D `float32` array is modelled as a `List (List ℚ)` of its rows.
  A numpy array is rectangular by construction; where a property needs this,
  the theorems carry a uniform-row-width hypothesis.  A zero-row array is
  modelled as `[]`, which carries no column count.
* Python `dict`s are modelled as association lists with Python's update
  semantics (an existing key keeps its position and gets the new value, a new
  key is appended); key lookup and `len` are defined below.
* Python exceptions are modelled with `Except`: a raised exception is an
  `Except.error` carrying a `PyErr` value naming the exception site.
* `uuid.uuid4()` draws are modelled by an explicit id-supply function
  `idGen : Nat → String` (the call for the `i`-th new document returns
  `idGen i`); freshness/uniqueness of the draws becomes a hypothesis where a
  property needs it.
-/

/-- Errors a call into the store can raise.  Each constructor corresponds to a
concrete `raise` site (or a numpy/Python built-in exception) reachable from
the source of `numpy.py`. -/
inductive PyErr where
  /-- the `ValueError` raised at the top of `add_texts` when the docstore is
  not an `AddableMixin` (the source message also interpolates the docstore's
  repr, which we do not model). -/
  | unsupportedDocstore
  /-- the `ValueError` numpy raises from `np.array` on ragged input or from
  `np.vstack` on a row-width mismatch. -/
  | dimensionMismatch
  /-- the `ValueError` numpy raises when broadcasting `self.index - embedding`
  with incompatible shapes in `similarity_search`. -/
  | broadcastError
  /-- the `IndexError` raised by `metadatas[i]` when a provided metadata list
  is too short. -/
  | indexError (i : Nat)
  /-- the `AttributeError` raised by attribute lookup on an object that lacks
  the attribute. -/
  | attributeError (attr : String)
  /-- the `ValueError` raised in the search loops when the docstore returns a
  non-`Document` for a mapped id (the source message also interpolates the
  returned value, which we do not model). -/
  | documentNotFound (id : String)
  /-- the `KeyError` raised by `self.index_to_docstore_id[i]` when a selected
  row index is absent from the mapping. -/
  | keyError (k : Nat)
deriving DecidableEq

/-- Python metadata dict of a document; contents are opaque to the store. -/
abbrev Metadata := List (String × String)

/-- A langchain `Document`: page content plus metadata.  The store never
inspects the contents. -/
structure Document where
  page_content : String
  metadata : Metadata
deriving DecidableEq

/-- Value returned by `Docstore.search`: either an actual `Document` or any
non-`Document` Python value (e.g. the "ID ... not found." string the in-memory
docstore returns), which the store must treat as an error. -/
inductive DocstoreEntry where
  | doc (d : Document)
  | other (s : String)
deriving DecidableEq

/-- Python-dict lookup on an association list: the value of the first pair
whose key equals `k`, if any. -/
def pyDictGet {κ α : Type} [DecidableEq κ] (d : List (κ × α)) (k : κ) : Option α :=
  (d.find? (fun p => p.1 = k)).map (fun p => p.2)

/-- Python-dict key count (`len`): the number of distinct keys. -/
def pyDictLen {κ α : Type} [DecidableEq κ] [BEq κ] (d : List (κ × α)) : Nat :=
  ((d.map Prod.fst).eraseDups).length

/-- Python-dict single-key write: an existing key keeps its position and gets
the new value; a new key is appended at the end. -/
def pyDictInsert {κ α : Type} [DecidableEq κ] :
    List (κ × α) → κ → α → List (κ × α)
  | [], k, v => [(k, v)]
  | p :: rest, k, v =>
    if p.1 = k then (k, v) :: rest else p :: pyDictInsert rest k v

/-- Python `dict.update`: write each pair of `new` in order. -/
def pyDictUpdate {κ α : Type} [DecidableEq κ] (d new : List (κ × α)) : List (κ × α) :=
  new.foldl (fun acc p => pyDictInsert acc p.1 p.2) d

/-- Modelled from the spec: the `Docstore` collaborator (its implementation is
not under `src/`).  `addable` records whether the docstore supports insertion
(Python: `isinstance(docstore, AddableMixin)`); `table` holds its contents. -/
structure Docstore where
  addable : Bool
  table : List (String × DocstoreEntry)

/-- Modelled from the spec: `Docstore.search(id)` returns the stored entry, or
a non-`Document` sentinel string when the id is absent (the in-memory
docstore returns `f"ID {search} not found."`). -/
def Docstore.search (ds : Docstore) (id : String) : DocstoreEntry :=
  (pyDictGet ds.table id).getD (.other ("ID " ++ id ++ " not found."))

/-- Modelled from the spec: `Docstore.add(mapping)` inserts the given
id→Document pairs. -/
def Docstore.add (ds : Docstore) (items : List (String × Document)) : Docstore :=
  { ds with table := pyDictUpdate ds.table (items.map (fun p => (p.1, .doc p.2))) }

/-- The `NumpyVectorStore` state: its four constructor fields.
`embedding_function` is the external embedding collaborator (a pure function
in this model), `index` the numpy matrix of row vectors, `docstore` the
document-store collaborator, `index_to_docstore_id` the row-index→id dict. -/
structure NumpyVectorStore where
  embedding_function : String → List ℚ
  index : List (List ℚ)
  docstore : Docstore
  index_to_docstore_id : List (Nat × String)

/-- Squared Euclidean distance of a row from the query embedding:
`np.sum((row - embedding) ** 2)` for one row, elementwise over equal-length
vectors. -/
def sqdist (r q : List ℚ) : ℚ :=
  ((List.zipWith (fun a b => a - b) r q).map (fun x => x * x)).sum

/-- Model of `np.argsort(D)` (default `kind`): a permutation of
`0, …, len(D)-1` ordering `D`'s entries non-decreasingly, realised as a
stable merge sort on the indices.  numpy's default introsort coincides with
this on arrays below its small-array cutoff but is not stable in general; the
theorems below rely only on sortedness, length and permutation facts, which
hold for every `np.argsort` kind. -/
def argsort (D : List ℚ) : List Nat :=
  (List.range D.length).mergeSort (fun i j => decide (D.getD i 0 ≤ D.getD j 0))

/-- The document-resolution loop shared by the search paths
(`numpy.py` lines 96–106): for each selected index, skip the `-1` padding
sentinel, look the row up in `index_to_docstore_id` (a missing key raises
`KeyError`), fetch from the docstore, and raise `ValueError` if the result is
not a `Document`. -/
def resolveDocs (s : NumpyVectorStore) : List Int → Except PyErr (List Document)
  | [] => .ok []
  | i :: rest =>
    if i = -1 then
      -- "This happens when not enough docs are returned."
      resolveDocs s rest
    else
      match pyDictGet s.index_to_docstore_id i.toNat with
      | none => .error (.keyError i.toNat)
      | some id =>
        match s.docstore.search id with
        | .doc d => (resolveDocs s rest).map (fun ds => d :: ds)
        | .other _ => .error (.documentNotFound id)

/-- `similarity_search(query, k)` (`numpy.py` lines 80–106): embed the query;
`D = np.sum((self.index - embedding) ** 2, axis=1)` (requires each row to
have the embedded query's width, else numpy raises a broadcast `ValueError`;
numpy's degenerate width-1 broadcasts are not modelled, no claim involves
them); `I = np.argsort(D)`; take `I[:k]`, padding with `-1` when fewer than
`k` rows exist; resolve the selected rows to documents. -/
def similarity_search (s : NumpyVectorStore) (query : String) (k : Nat) :
    Except PyErr (List Document) :=
  let embedding := s.embedding_function query
  if s.index.all (fun r => r.length == embedding.length) then
    let D := s.index.map (fun r => sqdist r embedding)
    let I := argsort D
    let indices : List Int :=
      if k ≤ I.length then (I.take k).map Int.ofNat
      else I.map Int.ofNat ++ List.replicate (k - I.length) (-1)
    resolveDocs s indices
  else .error .broadcastError

/-- A Python `Iterable` as observed by code that iterates it twice: `pass1`
is the sequence produced by the first `for` loop over it, `pass2` the
sequence produced by the second.  A materialised sequence (list, tuple)
yields the same elements both times; a one-shot iterator (e.g. a generator)
is exhausted by the first pass and yields nothing on the second. -/
structure PyIterable (α : Type) where
  pass1 : List α
  pass2 : List α

/-- A Python list viewed as an iterable: both passes yield its elements. -/
def PyIterable.ofList {α : Type} (xs : List α) : PyIterable α := ⟨xs, xs⟩

/-- A Python generator (one-shot iterator) that initially yields `xs`: the
first pass exhausts it, the second yields nothing. -/
def PyIterable.gen {α : Type} (xs : List α) : PyIterable α := ⟨xs, []⟩

/-- The expression `metadatas[i] if metadatas else {}` from the document
loops: `None` and the empty list are falsy, giving `{}`; a non-empty list is
indexed and raises `IndexError` when `i` is out of range. -/
def metadataAt (metadatas : Option (List Metadata)) (i : Nat) :
    Except PyErr Metadata :=
  match metadatas with
  | none => .ok []
  | some [] => .ok []
  | some ms => if h : i < ms.length then .ok (ms.get ⟨i, h⟩) else .error (.indexError i)

/-- The document-building loop `for i, text in enumerate(texts)` starting at
index `i`: build `Document(page_content=text, metadata=metadatas[i] if
metadatas else {})` for each text, left to right. -/
def buildDocumentsFrom (metadatas : Option (List Metadata)) :
    Nat → List String → Except PyErr (List Document)
  | _, [] => .ok []
  | i, t :: ts =>
    match metadataAt metadatas i with
    | .error e => .error e
    | .ok m =>
      match buildDocumentsFrom metadatas (i + 1) ts with
      | .error e => .error e
      | .ok ds => .ok (⟨t, m⟩ :: ds)

/-- The document-building loop of `add_texts` (lines 62–65) and `from_texts`
(lines 165–168). -/
def buildDocuments (texts : List String) (metadatas : Option (List Metadata)) :
    Except PyErr (List Document) :=
  buildDocumentsFrom metadatas 0 texts

/-- Model of `np.array(rows, dtype=np.float32)` for a list of vectors:
ragged input raises `ValueError`; otherwise the rows form a 2-D array
(an empty list gives the degenerate shape-`(0,)` array, here `[]`). -/
def np_array2d (rows : List (List ℚ)) : Except PyErr (List (List ℚ)) :=
  match rows with
  | [] => .ok []
  | r0 :: _ =>
    if rows.all (fun r => r.length == r0.length) then .ok rows
    else .error .dimensionMismatch

/-- Model of `np.vstack((self.index, np.array(embeddings, dtype=np.float32)))`
from `add_texts` line 68.  `np.array` of a ragged batch raises `ValueError`;
an empty batch gives a shape-`(0,)` array which `np.vstack` cannot stack onto
a 2-D matrix (`ValueError`); a uniform batch must match the matrix's row
width.  A zero-row matrix is `[]` here and carries no established width (see
the module conventions), so a uniform batch stacks onto it unconditionally. -/
def np_vstack (index newRows : List (List ℚ)) : Except PyErr (List (List ℚ)) :=
  match index, newRows with
  | _, [] => .error .dimensionMismatch
  | [], v0 :: _ =>
    if newRows.all (fun v => v.length == v0.length) then .ok newRows
    else .error .dimensionMismatch
  | r0 :: _, v0 :: _ =>
    if newRows.all (fun v => v.length == v0.length) then
      if v0.length == r0.length then .ok (index ++ newRows)
      else .error .dimensionMismatch
    else .error .dimensionMismatch

/-- `add_texts(texts, metadatas)` (`numpy.py` lines 43–78).  Returns the
(possibly updated) store together with the returned id list or the raised
exception; every `.error` outcome leaves the returned store exactly as it
was when the exception was raised.  Steps, in source order: the
`AddableMixin` capability check; `embeddings = [self.embedding_function(text)
for text in texts]` (first iteration of `texts`); the document loop
(`enumerate(texts)`, second iteration); `starting_len =
len(self.index_to_docstore_id)`; the `np.vstack` append to `self.index`;
`full_info` pairing row `starting_len + i` with the fresh id `idGen i` and
document `i`; `self.docstore.add`; `self.index_to_docstore_id.update`;
return the ids in input order. -/
def add_texts (s : NumpyVectorStore) (texts : PyIterable String)
    (metadatas : Option (List Metadata)) (idGen : Nat → String) :
    NumpyVectorStore × Except PyErr (List String) :=
  if !s.docstore.addable then
    (s, .error .unsupportedDocstore)
  else
    let embeddings := texts.pass1.map s.embedding_function
    match buildDocuments texts.pass2 metadatas with
    | .error e => (s, .error e)
    | .ok documents =>
      let starting_len := pyDictLen s.index_to_docstore_id
      match np_vstack s.index embeddings with
      | .error e => (s, .error e)
      | .ok newIndex =>
        let full_info := documents.enum.map
          (fun p => (starting_len + p.1, idGen p.1, p.2))
        let s1 := { s with
          index := newIndex
          docstore := s.docstore.add (full_info.map (fun t => (t.2.1, t.2.2)))
          index_to_docstore_id := pyDictUpdate s.index_to_docstore_id
            (full_info.map (fun t => (t.1, t.2.1))) }
        (s1, .ok (full_info.map (fun t => t.2.1)))

/-- `from_texts(texts, embedding, metadatas)` (`numpy.py` lines 139–174):
`index = np.array(embedding.embed_documents(texts), dtype=np.float32)`; the
document loop; `index_to_id = {i: str(i)}` (plain `str(i)` ids, per the
source comment, for ease of unit testing); an in-memory docstore (which
supports insertion) holding `{index_to_id[i]: doc}`; the store is built from
`embedding.embed_query`, the index, the docstore and the mapping. -/
def from_texts (texts : List String)
    (embed_documents : List String → List (List ℚ))
    (embed_query : String → List ℚ)
    (metadatas : Option (List Metadata)) : Except PyErr NumpyVectorStore :=
  match np_array2d (embed_documents texts) with
  | .error e => .error e
  | .ok index =>
    match buildDocuments texts metadatas with
    | .error e => .error e
    | .ok documents =>
      let index_to_id := (List.range documents.length).map
        (fun i => (i, toString i))
      let docstore : Docstore :=
        ⟨true, documents.enum.map (fun p => (toString p.1, .doc p.2))⟩
      .ok ⟨embed_query, index, docstore, index_to_id⟩

/-- `max_marginal_relevance_search(query, k, fetch_k)` (`numpy.py` lines
108–137): the query is embedded, and then line 125 evaluates
`self.index.search(np.array([embedding], dtype=np.float32), fetch_k)`.
`self.index` is a numpy `ndarray` (the result of `np.array` in `from_texts`
and of `np.vstack` in `add_texts`), and `numpy.ndarray` has no attribute
`search` (nor `reconstruct` on line 127); these are methods of a faiss index.
Attribute lookup therefore raises `AttributeError` before any retrieval, MMR
selection, or docstore access, on every call. -/
def max_marginal_relevance_search (s : NumpyVectorStore) (query : String)
    (k : Nat) (fetch_k : Nat) : Except PyErr (List Document) :=
  let _embedding := s.embedding_function query
  let _ := k
  let _ := fetch_k
  .error (.attributeError "search")

/-- The distance key used by `similarity_search`: squared Euclidean distance
of row `i` from the embedded query. -/
def rowDist (s : NumpyVectorStore) (query : String) (i : Nat) : ℚ :=
  sqdist (s.index.getD i []) (s.embedding_function query)

/-- The row-index list `I[:k]` computed inside `similarity_search` (the
argsort prefix, before the `-1` padding).  When the store has fewer than `k`
rows this is all of `I`. -/
def nnTopK (s : NumpyVectorStore) (query : String) (k : Nat) : List Nat :=
  (argsort (s.index.map (fun r => sqdist r (s.embedding_function query)))).take k

/-! Concrete fixtures used by the witness theorems. -/

/-- An embedding collaborator mapping every text to the width-1 vector `[0]`. -/
def constEmb1 : String → List ℚ := fun _ => [0]

/-- A well-formed one-row store (the store `from_texts ["seed"]` produces with
`constEmb1` as the embedding collaborator). -/
def seedStore : NumpyVectorStore :=
  ⟨constEmb1, [[0]], ⟨true, [("0", .doc ⟨"seed", []⟩)]⟩, [(0, "0")]⟩

/-- A store whose matrix has zero rows. -/
def emptyStore : NumpyVectorStore := ⟨constEmb1, [], ⟨true, []⟩, []⟩

/-- A store whose docstore does not support insertion. -/
def nonAddableStore : NumpyVectorStore :=
  ⟨constEmb1, [[0]], ⟨false, []⟩, [(0, "0")]⟩

/-- A well-formed two-row store: rows `[0]` and `[1]`, at squared distances
`0` and `1` from the `constEmb1` query embedding `[0]`. -/
def store2 : NumpyVectorStore :=
  ⟨constEmb1, [[0], [1]],
    ⟨true, [("0", .doc ⟨"zero", []⟩), ("1", .doc ⟨"one", []⟩)]⟩,
    [(0, "0"), (1, "1")]⟩

/-- The documents of `store2` by row index. -/
def g2 : Nat → Document := fun i => if i = 0 then ⟨"zero", []⟩ else ⟨"one", []⟩

/-- A corrupted store: row 0 maps to id "0", but the docstore holds a
non-`Document` value there. -/
def badStore : NumpyVectorStore :=
  ⟨constEmb1, [[0]], ⟨true, [("0", .other "corrupt")]⟩, [(0, "0")]⟩

/-- An embedding collaborator that returns a width-3 vector for the text
"bad" and width-2 vectors otherwise. -/
def mismatchEmb : String → List ℚ := fun t => if t = "bad" then [0, 0, 0] else [0, 0]

/-- A store established with width-2 rows, using `mismatchEmb`. -/
def storeW2 : NumpyVectorStore :=
  ⟨mismatchEmb, [[0, 0]], ⟨true, [("0", .doc ⟨"w", []⟩)]⟩, [(0, "0")]⟩

/-- A decimal id supply (`str(i)`), injective on every initial segment. -/
def strIdGen : Nat → String := fun i => toString i

/-! Theorems. -/

/-- Skipping the `-1` padding sentinels: resolving a list of padding entries
alone yields the empty document list. -/
theorem resolveDocs_replicate_neg_one (s : NumpyVectorStore) :
    ∀ m : Nat, resolveDocs s (List.replicate m (-1)) = .ok []
  | 0 => rfl
  | m + 1 => by
    simp [List.replicate_succ, resolveDocs, resolveDocs_replicate_neg_one s m]

/-- Looking up the key just written by a dict write returns the new value. -/
theorem pyDictGet_pyDictInsert_self {κ α : Type} [DecidableEq κ]
    (d : List (κ × α)) (k : κ) (v : α) :
    pyDictGet (pyDictInsert d k v) k = some v := by
  induction d with
  | nil => simp [pyDictInsert, pyDictGet]
  | cons p rest ih =>
    by_cases hp : p.1 = k
    · simp [pyDictInsert, hp, pyDictGet]
    · simpa [pyDictInsert, hp, pyDictGet, List.find?_cons] using ih

/-- A dict write does not change the value of other keys. -/
theorem pyDictGet_pyDictInsert_ne {κ α : Type} [DecidableEq κ]
    (d : List (κ × α)) (k k' : κ) (v : α) (h : k' ≠ k) :
    pyDictGet (pyDictInsert d k v) k' = pyDictGet d k' := by
  induction d with
  | nil => simp [pyDictInsert, pyDictGet, List.find?, Ne.symm h]
  | cons p rest ih =>
    by_cases hp : p.1 = k
    · rw [pyDictInsert, if_pos hp]
      unfold pyDictGet
      rw [List.find?_cons, List.find?_cons]
      have h1 : (decide ((k, v).1 = k') : Bool) = false := by simp [Ne.symm h]
      have h2 : (decide (p.1 = k') : Bool) = false := by simp [hp, Ne.symm h]
      rw [h1, h2]
    · rw [pyDictInsert, if_neg hp]
      unfold pyDictGet at ih ⊢
      rw [List.find?_cons, List.find?_cons]
      cases hd : (decide (p.1 = k') : Bool)
      · simpa only [hd] using ih
      · simp only [hd]

/-- A dict update with none of the looked-up key leaves its value alone. -/
theorem pyDictGet_pyDictUpdate_not_mem {κ α : Type} [DecidableEq κ]
    (new : List (κ × α)) (d : List (κ × α)) (k : κ)
    (h : k ∉ new.map Prod.fst) :
    pyDictGet (pyDictUpdate d new) k = pyDictGet d k := by
  induction new generalizing d with
  | nil => rfl
  | cons q rest ih =>
    simp only [List.map_cons, List.mem_cons, not_or] at h
    show pyDictGet (pyDictUpdate (pyDictInsert d q.1 q.2) rest) k = pyDictGet d k
    rw [ih _ h.2, pyDictGet_pyDictInsert_ne _ _ _ _ h.1]

/-- After a dict update whose written keys are distinct, each written key
maps to its written value. -/
theorem pyDictGet_pyDictUpdate_mem {κ α : Type} [DecidableEq κ]
    (new : List (κ × α)) (d : List (κ × α)) (k : κ) (v : α)
    (hnd : (new.map Prod.fst).Nodup) (hmem : (k, v) ∈ new) :
    pyDictGet (pyDictUpdate d new) k = some v := by
  induction new generalizing d with
  | nil => cases hmem
  | cons q rest ih =>
    rcases List.mem_cons.mp hmem with h | h
    · subst h
      simp only [List.map_cons, List.nodup_cons] at hnd
      show pyDictGet (pyDictUpdate (pyDictInsert d k v) rest) k = some v
      rw [pyDictGet_pyDictUpdate_not_mem _ _ _ hnd.1, pyDictGet_pyDictInsert_self]
    · simp only [List.map_cons, List.nodup_cons] at hnd
      exact ih _ hnd.2 h

/-- The metadata expression raises only `IndexError`, and only at the
offending position. -/
theorem metadataAt_error_eq (metadatas : Option (List Metadata)) (i : Nat)
    (e : PyErr) (h : metadataAt metadatas i = .error e) : e = .indexError i := by
  cases metadatas with
  | none => simp [metadataAt] at h
  | some ms =>
    cases ms with
    | nil => simp [metadataAt] at h
    | cons m ms' =>
      simp only [metadataAt] at h
      split at h
      · cases h
      · cases h; rfl

/-- The document-building loop never raises the capability error. -/
theorem buildDocumentsFrom_ne_unsupported (metadatas : Option (List Metadata)) :
    ∀ (i : Nat) (ts : List String),
      buildDocumentsFrom metadatas i ts ≠ .error .unsupportedDocstore := by
  intro i ts
  induction ts generalizing i with
  | nil => simp [buildDocumentsFrom]
  | cons t ts' ih =>
    simp only [buildDocumentsFrom]
    cases hma : metadataAt metadatas i with
    | error e =>
      have he := metadataAt_error_eq _ _ _ hma
      subst he
      simp
    | ok m =>
      cases hb : buildDocumentsFrom metadatas (i + 1) ts' with
      | error e =>
        intro h
        cases h
        exact ih (i + 1) hb
      | ok ds => simp

/-- `np.vstack` raises only the dimension-mismatch error. -/
theorem np_vstack_error_eq (index rows : List (List ℚ)) (e : PyErr)
    (h : np_vstack index rows = .error e) : e = .dimensionMismatch := by
  unfold np_vstack at h
  split at h
  · cases h; rfl
  · split at h
    · cases h
    · cases h; rfl
  · split at h
    · split at h
      · cases h
      · cases h; rfl
    · cases h; rfl

/-- `np.vstack` succeeds on a non-empty batch of uniform width matching every
matrix row's width, appending the new rows after the existing ones. -/
theorem np_vstack_ok (index newRows : List (List ℚ)) (d : Nat)
    (hne : newRows ≠ [])
    (hidx : ∀ r ∈ index, r.length = d)
    (hnew : ∀ v ∈ newRows, v.length = d) :
    np_vstack index newRows = .ok (index ++ newRows) := by
  cases newRows with
  | nil => exact absurd rfl hne
  | cons v0 vs =>
    have hall : ((v0 :: vs).all (fun v => v.length == v0.length)) = true := by
      apply List.all_eq_true.mpr
      intro v hv
      rw [Nat.beq_eq_true_eq, hnew v hv, hnew v0 (List.mem_cons_self _ _)]
    cases index with
    | nil =>
      simp only [np_vstack]
      rw [if_pos hall]
      rfl
    | cons r0 rows =>
      simp only [np_vstack]
      rw [if_pos hall, if_pos (by
        rw [Nat.beq_eq_true_eq, hnew v0 (List.mem_cons_self _ _),
          hidx r0 (List.mem_cons_self _ _)])]

/-- `np.vstack` onto a non-empty matrix of established width `d` fails with
the dimension-mismatch error whenever some new row has a different width. -/
theorem np_vstack_mismatch (index newRows : List (List ℚ)) (d : Nat)
    (hne : index ≠ [])
    (hidx : ∀ r ∈ index, r.length = d)
    (hbad : ∃ v ∈ newRows, v.length ≠ d) :
    np_vstack index newRows = .error .dimensionMismatch := by
  obtain ⟨v, hv, hvlen⟩ := hbad
  cases newRows with
  | nil => cases hv
  | cons v0 vs =>
    cases index with
    | nil => exact absurd rfl hne
    | cons r0 rows =>
      simp only [np_vstack]
      by_cases hall : ((v0 :: vs).all (fun v => v.length == v0.length)) = true
      · rw [if_pos hall]
        have h1 := List.all_eq_true.mp hall v hv
        rw [Nat.beq_eq_true_eq] at h1
        have hv0 : v0.length ≠ d := fun h2 => hvlen (by rw [h1, h2])
        rw [if_neg (by
          rw [Nat.beq_eq_true_eq, hidx r0 (List.mem_cons_self _ _)]
          exact hv0)]
      · rw [if_neg hall]

/-- C1: `max_marginal_relevance_search` never reaches retrieval or MMR
selection: for every store, query, `k` and `fetch_k` it raises
`AttributeError` because `self.index` (a numpy `ndarray`) has no `search`
method — the claim's described behaviour (fetch `fetch_k` nearest rows, run
MMR, return the selected `Document`s without failing) never happens. -/
theorem mmr_search_raises_attributeError (s : NumpyVectorStore)
    (query : String) (k fetch_k : Nat) :
    max_marginal_relevance_search s query k fetch_k =
      .error (.attributeError "search") := rfl

/-- C2: counterexample to the row/id lockstep invariant.  `from_texts`
produces the consistent one-row store `seedStore`; a subsequent `add_texts`
whose `texts` argument is a one-shot iterator (a generator yielding one
string) succeeds, appends one row to the matrix, but adds nothing to
`index_to_docstore_id` and returns no ids: afterwards the matrix has 2 rows
while the mapping has 1 entry. -/
theorem add_texts_generator_input_breaks_lockstep :
    from_texts ["seed"] (fun ts => ts.map constEmb1) constEmb1 none
        = .ok seedStore ∧
    (add_texts seedStore (PyIterable.gen ["a"]) none strIdGen).1.index.length = 2 ∧
    pyDictLen (add_texts seedStore (PyIterable.gen ["a"]) none
        strIdGen).1.index_to_docstore_id = 1 ∧
    (add_texts seedStore (PyIterable.gen ["a"]) none strIdGen).2 = .ok [] :=
  ⟨rfl, rfl, rfl, rfl⟩

/-- C5: on a store whose matrix has zero rows, `similarity_search` returns
the empty list for every `k` (in particular every `k > 0`), raising no
error: the argsort of the empty distance array is empty, the result is
padded with `-1` sentinels, and the resolution loop skips them all. -/
theorem similarity_search_empty_index_returns_nil (s : NumpyVectorStore)
    (query : String) (k : Nat) (h : s.index = []) :
    similarity_search s query k = .ok [] := by
  unfold similarity_search
  rw [h]
  by_cases hk : k = 0
  · subst hk
    simp [argsort, resolveDocs]
  · simp [argsort, hk, resolveDocs_replicate_neg_one]

/-- Witness for C5: the concrete zero-row store with `k = 3`. -/
theorem similarity_search_empty_index_returns_nil_witness :
    similarity_search emptyStore "x" 3 = .ok [] :=
  similarity_search_empty_index_returns_nil emptyStore "x" 3 rfl

/-- C7: `add_texts` raises the capability error (`UnsupportedDocstore`) if
and only if the configured docstore lacks insertion support; when it does,
the error is raised as the very first step, before the embedding, the
matrix, the mapping or the docstore are touched (the returned store is
exactly the input store). -/
theorem add_texts_unsupported_docstore_iff (s : NumpyVectorStore)
    (texts : PyIterable String) (metadatas : Option (List Metadata))
    (idGen : Nat → String) :
    ((add_texts s texts metadatas idGen).2 = .error .unsupportedDocstore ↔
      s.docstore.addable = false) ∧
    (s.docstore.addable = false →
      add_texts s texts metadatas idGen = (s, .error .unsupportedDocstore)) := by
  cases ha : s.docstore.addable with
  | false =>
    have hrun : add_texts s texts metadatas idGen =
        (s, .error .unsupportedDocstore) := by
      unfold add_texts
      rw [ha]
      rfl
    exact ⟨by rw [hrun]; simp, fun _ => hrun⟩
  | true =>
    refine ⟨⟨fun hres => ?_, fun hfalse => by cases hfalse⟩,
      fun hfalse => by cases hfalse⟩
    exfalso
    unfold add_texts at hres
    rw [ha] at hres
    simp only [Bool.not_true, Bool.false_eq_true, if_false] at hres
    cases hb : buildDocuments texts.pass2 metadatas with
    | error e =>
      rw [hb] at hres
      simp only at hres
      cases hres
      exact buildDocumentsFrom_ne_unsupported metadatas 0 texts.pass2 hb
    | ok ds =>
      rw [hb] at hres
      cases hv : np_vstack s.index (texts.pass1.map s.embedding_function) with
      | error e =>
        rw [hv] at hres
        simp only at hres
        cases hres
        cases np_vstack_error_eq _ _ _ hv
      | ok ni =>
        rw [hv] at hres
        simp only at hres
        cases hres

/-- Witness for C7: the capability check on a concrete non-addable store. -/
theorem add_texts_unsupported_docstore_iff_witness :
    (((add_texts nonAddableStore (PyIterable.ofList ["a"]) none strIdGen).2 =
        .error .unsupportedDocstore) ↔
      nonAddableStore.docstore.addable = false) ∧
    (nonAddableStore.docstore.addable = false →
      add_texts nonAddableStore (PyIterable.ofList ["a"]) none strIdGen =
        (nonAddableStore, .error .unsupportedDocstore)) :=
  add_texts_unsupported_docstore_iff nonAddableStore (PyIterable.ofList ["a"])
    none strIdGen

/-- When the metadata list is long enough (or absent, or empty and hence
falsy), the metadata expression succeeds. -/
theorem metadataAt_isOk (metadatas : Option (List Metadata)) (j : Nat)
    (h : ∀ ms, metadatas = some ms → ms ≠ [] → j < ms.length) :
    ∃ m, metadataAt metadatas j = .ok m := by
  cases metadatas with
  | none => exact ⟨[], rfl⟩
  | some ms =>
    cases ms with
    | nil => exact ⟨[], rfl⟩
    | cons m0 ms' =>
      have hj := h (m0 :: ms') rfl (by simp)
      refine ⟨(m0 :: ms').get ⟨j, hj⟩, ?_⟩
      simp only [metadataAt]
      rw [dif_pos hj]

/-- The document-building loop succeeds whenever every metadata index it
touches is in range. -/
theorem buildDocumentsFrom_isOk (metadatas : Option (List Metadata)) :
    ∀ (ts : List String) (i : Nat),
      (∀ j, i ≤ j → j < i + ts.length → ∃ m, metadataAt metadatas j = .ok m) →
      ∃ ds, buildDocumentsFrom metadatas i ts = .ok ds := by
  intro ts
  induction ts with
  | nil => exact fun i _ => ⟨[], rfl⟩
  | cons t ts' ih =>
    intro i h
    obtain ⟨m, hm⟩ := h i (Nat.le_refl i) (by simp only [List.length_cons]; omega)
    obtain ⟨ds, hds⟩ := ih (i + 1)
      (fun j hj1 hj2 => h j (by omega) (by simp only [List.length_cons]; omega))
    exact ⟨⟨t, m⟩ :: ds, by simp [buildDocumentsFrom, hm, hds]⟩

/-- C6: if any embedded vector of the batch has a width different from the
established width `d` of the (non-empty) matrix, `add_texts` fails with the
numpy dimension-mismatch `ValueError` raised inside the `np.vstack`
assignment, and the store — matrix, id mapping and docstore alike — is
returned exactly as it was: no partial append, no id assigned.  The
hypothesis `hmeta` excludes the unrelated `IndexError` of a too-short
metadata list, which would fire earlier. -/
theorem add_texts_dimension_mismatch_leaves_store_unchanged
    (s : NumpyVectorStore) (texts : PyIterable String)
    (metadatas : Option (List Metadata)) (idGen : Nat → String) (d : Nat)
    (haddable : s.docstore.addable = true)
    (hmeta : ∀ ms, metadatas = some ms → ms ≠ [] → texts.pass2.length ≤ ms.length)
    (hne : s.index ≠ [])
    (hrows : ∀ r ∈ s.index, r.length = d)
    (hbad : ∃ t ∈ texts.pass1, (s.embedding_function t).length ≠ d) :
    add_texts s texts metadatas idGen = (s, .error .dimensionMismatch) := by
  obtain ⟨ds, hds⟩ := buildDocumentsFrom_isOk metadatas texts.pass2 0
    (fun j _ hj2 => metadataAt_isOk metadatas j
      (fun ms hms hne' => lt_of_lt_of_le (by simpa using hj2) (hmeta ms hms hne')))
  have hvst : np_vstack s.index (texts.pass1.map s.embedding_function) =
      .error .dimensionMismatch := by
    apply np_vstack_mismatch s.index _ d hne hrows
    obtain ⟨t, ht, hlen⟩ := hbad
    exact ⟨s.embedding_function t, List.mem_map_of_mem _ ht, hlen⟩
  have hbd : buildDocuments texts.pass2 metadatas = .ok ds := hds
  unfold add_texts
  rw [haddable]
  simp only [Bool.not_true, Bool.false_eq_true, if_false]
  rw [hbd, hvst]

/-- Witness for C6: appending the width-3 embedding of "bad" to the width-2
store leaves it unchanged and raises the dimension-mismatch error. -/
theorem add_texts_dimension_mismatch_witness :
    add_texts storeW2 (PyIterable.ofList ["bad"]) none strIdGen =
      (storeW2, .error .dimensionMismatch) :=
  add_texts_dimension_mismatch_leaves_store_unchanged storeW2
    (PyIterable.ofList ["bad"]) none strIdGen 2 rfl
    (fun ms hms _ => by cases hms)
    (by simp [storeW2])
    (by intro r hr; simp [storeW2] at hr; rw [hr]; rfl)
    ⟨"bad", by simp [PyIterable.ofList], by simp [storeW2, mismatchEmb]⟩

/-- A natural-number cast is never the padding sentinel `-1`. -/
theorem ofNat_ne_neg_one (i : Nat) : (Int.ofNat i) ≠ -1 := by
  intro hcontra
  have h0 : (0 : Int) ≤ Int.ofNat i := Int.ofNat_nonneg i
  rw [hcontra] at h0
  exact absurd h0 (by decide)

/-- `np.argsort` returns a permutation of the row indices. -/
theorem argsort_perm (D : List ℚ) :
    List.Perm (argsort D) (List.range D.length) :=
  List.mergeSort_perm _ _

/-- The argsort has one entry per row. -/
theorem length_argsort (D : List ℚ) : (argsort D).length = D.length := by
  simpa using (argsort_perm D).length_eq

/-- Membership in the argsort is exactly the in-range row indices. -/
theorem mem_argsort {D : List ℚ} {i : Nat} : i ∈ argsort D ↔ i < D.length := by
  rw [(argsort_perm D).mem_iff, List.mem_range]

/-- The argsort lists indices in non-decreasing key order. -/
theorem argsort_sorted (D : List ℚ) :
    (argsort D).Pairwise (fun i j => D.getD i 0 ≤ D.getD j 0) := by
  have htrans : ∀ a b c : Nat, decide (D.getD a 0 ≤ D.getD b 0) →
      decide (D.getD b 0 ≤ D.getD c 0) → decide (D.getD a 0 ≤ D.getD c 0) :=
    fun a b c hab hbc => decide_eq_true
      (le_trans (of_decide_eq_true hab) (of_decide_eq_true hbc))
  have htotal : ∀ a b : Nat, (decide (D.getD a 0 ≤ D.getD b 0) ||
      decide (D.getD b 0 ≤ D.getD a 0)) = true := by
    intro a b
    rcases le_total (D.getD a 0) (D.getD b 0) with h | h
    · rw [decide_eq_true h, Bool.true_or]
    · rw [decide_eq_true h, Bool.or_true]
  exact (List.sorted_mergeSort htrans htotal (List.range D.length)).imp
    (fun hb => of_decide_eq_true hb)

/-- One step of the resolution loop at an index whose id resolves to a
document: the document is prepended to the resolution of the tail. -/
theorem resolveDocs_cons_doc (s : NumpyVectorStore) (i : Nat) (rest : List Int)
    (id : String) (d : Document)
    (hid : pyDictGet s.index_to_docstore_id i = some id)
    (hdoc : s.docstore.search id = .doc d) :
    resolveDocs s (Int.ofNat i :: rest) =
      (resolveDocs s rest).map (fun ds => d :: ds) := by
  have htn : (Int.ofNat i).toNat = i := rfl
  unfold resolveDocs
  rw [if_neg (ofNat_ne_neg_one i)]
  split
  · next heq => rw [htn, hid] at heq; cases heq
  · next id' heq =>
    rw [htn, hid] at heq
    injection heq with heq
    subst heq
    split
    · next d' heq2 =>
      rw [hdoc] at heq2
      injection heq2 with heq2
      subst heq2
      rw [← resolveDocs.eq_def]
    · next o heq2 => rw [hdoc] at heq2; cases heq2

/-- One step of the resolution loop at an index whose id resolves to a
non-`Document`: the loop raises the `ValueError` immediately. -/
theorem resolveDocs_cons_other (s : NumpyVectorStore) (i : Nat)
    (rest : List Int) (id : String) (o : String)
    (hid : pyDictGet s.index_to_docstore_id i = some id)
    (hother : s.docstore.search id = .other o) :
    resolveDocs s (Int.ofNat i :: rest) = .error (.documentNotFound id) := by
  have htn : (Int.ofNat i).toNat = i := rfl
  unfold resolveDocs
  rw [if_neg (ofNat_ne_neg_one i)]
  split
  · next heq => rw [htn, hid] at heq; cases heq
  · next id' heq =>
    rw [htn, hid] at heq
    injection heq with heq
    subst heq
    split
    · next d' heq2 => rw [hother] at heq2; cases heq2
    · next o' heq2 => rfl

/-- Unfolding of `similarity_search` past its local bindings (`D`, `I`,
`indices` in the source). -/
theorem similarity_search_def (s : NumpyVectorStore) (query : String) (k : Nat) :
    similarity_search s query k =
      if s.index.all (fun r => r.length == (s.embedding_function query).length) then
        resolveDocs s
          (if k ≤ (argsort (s.index.map
              (fun r => sqdist r (s.embedding_function query)))).length then
            ((argsort (s.index.map
              (fun r => sqdist r (s.embedding_function query)))).take k).map Int.ofNat
          else
            (argsort (s.index.map
              (fun r => sqdist r (s.embedding_function query)))).map Int.ofNat ++
              List.replicate (k - (argsort (s.index.map
                (fun r => sqdist r (s.embedding_function query)))).length) (-1))
      else .error .broadcastError := rfl

/-- When every row has the query embedding's width, `similarity_search`
reduces to resolving the argsort prefix, padded with `-1` sentinels when `k`
exceeds the row count. -/
theorem similarity_search_eq_resolve (s : NumpyVectorStore) (query : String)
    (k : Nat)
    (hdim : ∀ r ∈ s.index, r.length = (s.embedding_function query).length) :
    similarity_search s query k =
      resolveDocs s ((nnTopK s query k).map Int.ofNat ++
        List.replicate (k - s.index.length) (-1)) := by
  have hall : (s.index.all
      (fun r => r.length == (s.embedding_function query).length)) = true :=
    List.all_eq_true.mpr (fun r hr => by rw [Nat.beq_eq_true_eq]; exact hdim r hr)
  rw [similarity_search_def, if_pos hall]
  unfold nnTopK
  have hlen : (argsort (s.index.map
      (fun r => sqdist r (s.embedding_function query)))).length = s.index.length := by
    rw [length_argsort, List.length_map]
  generalize hA : argsort (s.index.map
      (fun r => sqdist r (s.embedding_function query))) = A
  rw [hA] at hlen
  by_cases hk : k ≤ A.length
  · rw [if_pos hk]
    have h0 : k - s.index.length = 0 := by omega
    rw [h0, List.replicate_zero, List.append_nil]
  · rw [if_neg hk]
    rw [List.take_of_length_le (by omega), hlen]

/-- When each selected index resolves to a document, the resolution loop
returns exactly those documents, skipping the padding sentinels. -/
theorem resolveDocs_ok_of_resolved (s : NumpyVectorStore) (g : Nat → Document) :
    ∀ (sel : List Nat) (m : Nat),
      (∀ i ∈ sel, ∃ id, pyDictGet s.index_to_docstore_id i = some id ∧
        s.docstore.search id = .doc (g i)) →
      resolveDocs s (sel.map Int.ofNat ++ List.replicate m (-1)) =
        .ok (sel.map g) := by
  intro sel
  induction sel with
  | nil => intro m _; simpa using resolveDocs_replicate_neg_one s m
  | cons i rest ih =>
    intro m h
    obtain ⟨id, hid, hdoc⟩ := h i (List.mem_cons_self i rest)
    rw [List.map_cons, List.cons_append,
      resolveDocs_cons_doc s i _ id (g i) hid hdoc,
      ih m (fun j hj => h j (List.mem_cons_of_mem _ hj))]
    rfl

/-- Each index selected by `similarity_search` is an in-range row index. -/
theorem mem_nnTopK_lt (s : NumpyVectorStore) (query : String) (k : Nat)
    {i : Nat} (h : i ∈ nnTopK s query k) : i < s.index.length := by
  unfold nnTopK at h
  have h2 := List.take_subset _ _ h
  rw [mem_argsort] at h2
  simpa using h2

/-- The argsort key at an in-range index is the row's distance. -/
theorem getD_map_sqdist (s : NumpyVectorStore) (query : String) {i : Nat}
    (h : i < s.index.length) :
    (s.index.map (fun r => sqdist r (s.embedding_function query))).getD i 0 =
      rowDist s query i := by
  unfold rowDist
  rw [List.getD_eq_getElem?_getD, List.getElem?_map, List.getElem?_eq_getElem h]
  rw [List.getD_eq_getElem?_getD, List.getElem?_eq_getElem h]
  rfl

/-- C3: on a store whose rows have the embedded query's width and whose
mapping and docstore resolve every row (`g` names the document of each row),
`similarity_search` returns the documents of the argsort prefix `I[:k]`:
`min k n` documents, in non-decreasing squared-Euclidean-distance order, and
every selected row's distance is at most every unselected row's distance
(the `k` nearest rows). -/
theorem similarity_search_sorted_min_k (s : NumpyVectorStore) (query : String)
    (k : Nat) (g : Nat → Document)
    (_hne : s.index ≠ [])
    (hdim : ∀ r ∈ s.index, r.length = (s.embedding_function query).length)
    (hres : ∀ i, i < s.index.length →
      ∃ id, pyDictGet s.index_to_docstore_id i = some id ∧
        s.docstore.search id = .doc (g i)) :
    similarity_search s query k = .ok ((nnTopK s query k).map g) ∧
    (nnTopK s query k).length = min k s.index.length ∧
    (nnTopK s query k).Pairwise
      (fun i j => rowDist s query i ≤ rowDist s query j) ∧
    ∀ i ∈ nnTopK s query k, ∀ j, j < s.index.length → j ∉ nnTopK s query k →
      rowDist s query i ≤ rowDist s query j := by
  refine ⟨?_, ?_, ?_, ?_⟩
  · rw [similarity_search_eq_resolve s query k hdim]
    exact resolveDocs_ok_of_resolved s g _ _
      (fun i hi => hres i (mem_nnTopK_lt s query k hi))
  · unfold nnTopK
    rw [List.length_take, length_argsort, List.length_map]
  · have hp := (argsort_sorted
      (s.index.map (fun r => sqdist r (s.embedding_function query)))).sublist
      (List.take_sublist k _)
    refine hp.imp_of_mem ?_
    intro a b ha hb hle
    rw [getD_map_sqdist s query (mem_nnTopK_lt s query k ha),
      getD_map_sqdist s query (mem_nnTopK_lt s query k hb)] at hle
    exact hle
  · intro i hi j hj hjnot
    have hjA : j ∈ argsort (s.index.map
        (fun r => sqdist r (s.embedding_function query))) := by
      rw [mem_argsort]
      rw [List.length_map]
      exact hj
    have hsplit : j ∈ (argsort (s.index.map
          (fun r => sqdist r (s.embedding_function query)))).take k ++
        (argsort (s.index.map
          (fun r => sqdist r (s.embedding_function query)))).drop k := by
      rw [List.take_append_drop]
      exact hjA
    have hjdrop : j ∈ (argsort (s.index.map
        (fun r => sqdist r (s.embedding_function query)))).drop k := by
      rcases List.mem_append.mp hsplit with h | h
      · exact absurd h hjnot
      · exact h
    have hpairs : ((argsort (s.index.map
          (fun r => sqdist r (s.embedding_function query)))).take k ++
        (argsort (s.index.map
          (fun r => sqdist r (s.embedding_function query)))).drop k).Pairwise
        (fun a b => (s.index.map
          (fun r => sqdist r (s.embedding_function query))).getD a 0 ≤
          (s.index.map
            (fun r => sqdist r (s.embedding_function query))).getD b 0) := by
      rw [List.take_append_drop]
      exact argsort_sorted (s.index.map
        (fun r => sqdist r (s.embedding_function query)))
    have hle := (List.pairwise_append.mp hpairs).2.2 i hi j hjdrop
    rw [getD_map_sqdist s query (mem_nnTopK_lt s query k hi),
      getD_map_sqdist s query hj] at hle
    exact hle

/-- Witness for C3: the two-row store with `k = 1` selects the distance-0
row. -/
theorem similarity_search_sorted_min_k_witness :
    similarity_search store2 "q" 1 = .ok ((nnTopK store2 "q" 1).map g2) ∧
    (nnTopK store2 "q" 1).length = min 1 store2.index.length ∧
    (nnTopK store2 "q" 1).Pairwise
      (fun i j => rowDist store2 "q" i ≤ rowDist store2 "q" j) ∧
    ∀ i ∈ nnTopK store2 "q" 1, ∀ j, j < store2.index.length →
      j ∉ nnTopK store2 "q" 1 → rowDist store2 "q" i ≤ rowDist store2 "q" j :=
  similarity_search_sorted_min_k store2 "q" 1 g2 (by decide) (by decide)
    (fun i hi => by
      match i, hi with
      | 0, _ => exact ⟨"0", rfl, rfl⟩
      | 1, _ => exact ⟨"1", rfl, rfl⟩
      | n + 2, h => exact absurd h (by
          have h2 : store2.index.length = 2 := rfl
          omega))

/-- The resolution loop raises the document-not-found `ValueError` whenever
some selected index's id resolves to a non-`Document` (and every selected
index is mapped, so no `KeyError` preempts the loop). -/
theorem resolveDocs_error_of_bad (s : NumpyVectorStore) :
    ∀ (sel : List Nat) (m : Nat),
      (∀ i ∈ sel, ∃ id, pyDictGet s.index_to_docstore_id i = some id) →
      (∃ i ∈ sel, ∃ id o, pyDictGet s.index_to_docstore_id i = some id ∧
        s.docstore.search id = .other o) →
      ∃ id, resolveDocs s (sel.map Int.ofNat ++ List.replicate m (-1)) =
        .error (.documentNotFound id) := by
  intro sel
  induction sel with
  | nil =>
    intro m _ hbad
    obtain ⟨i, hi, _⟩ := hbad
    cases hi
  | cons i0 rest ih =>
    intro m hmap hbad
    obtain ⟨id0, hid0⟩ := hmap i0 (List.mem_cons_self _ _)
    cases hs : s.docstore.search id0 with
    | other o =>
      exact ⟨id0, by
        rw [List.map_cons, List.cons_append,
          resolveDocs_cons_other s i0 _ id0 o hid0 hs]⟩
    | doc d0 =>
      have hbad' : ∃ i ∈ rest, ∃ id o,
          pyDictGet s.index_to_docstore_id i = some id ∧
          s.docstore.search id = .other o := by
        obtain ⟨i, hi, id, o, hgi, hso⟩ := hbad
        rcases List.mem_cons.mp hi with h | hrest
        · subst h
          rw [hid0] at hgi
          injection hgi with hgi
          subst hgi
          rw [hs] at hso
          cases hso
        · exact ⟨i, hrest, id, o, hgi, hso⟩
      obtain ⟨id', herr⟩ := ih m
        (fun j hj => hmap j (List.mem_cons_of_mem _ hj)) hbad'
      exact ⟨id', by
        rw [List.map_cons, List.cons_append,
          resolveDocs_cons_doc s i0 _ id0 d0 hid0 hs, herr]
        rfl⟩

/-- C9: during `similarity_search`, whenever any selected (mapped) row's id
resolves to something that is not a `Document`, the call fails with the
document-not-found `ValueError` — it never silently drops the entry; and
when every selected row's id resolves to a document, every returned element
is exactly the document resolved from its row's id, in selection order. -/
theorem similarity_search_notFound_or_resolved (s : NumpyVectorStore)
    (query : String) (k : Nat) (g : Nat → Document)
    (hdim : ∀ r ∈ s.index, r.length = (s.embedding_function query).length)
    (hmap : ∀ i ∈ nnTopK s query k,
      ∃ id, pyDictGet s.index_to_docstore_id i = some id) :
    ((∃ i ∈ nnTopK s query k, ∃ id o,
        pyDictGet s.index_to_docstore_id i = some id ∧
        s.docstore.search id = .other o) →
      ∃ id, similarity_search s query k = .error (.documentNotFound id)) ∧
    ((∀ i ∈ nnTopK s query k,
        ∃ id, pyDictGet s.index_to_docstore_id i = some id ∧
          s.docstore.search id = .doc (g i)) →
      similarity_search s query k = .ok ((nnTopK s query k).map g)) := by
  constructor
  · intro hbad
    obtain ⟨id, h⟩ := resolveDocs_error_of_bad s (nnTopK s query k)
      (k - s.index.length) hmap hbad
    refine ⟨id, ?_⟩
    rw [similarity_search_eq_resolve s query k hdim]
    exact h
  · intro hres
    rw [similarity_search_eq_resolve s query k hdim]
    exact resolveDocs_ok_of_resolved s g _ _ hres

/-- The placeholder resolver for the corrupted-store witness. -/
def gBad : Nat → Document := fun _ => ⟨"irrelevant", []⟩

/-- Witness for C9: the corrupted one-row store, whose only selected row
maps to id "0" holding a non-`Document`. -/
theorem similarity_search_notFound_or_resolved_witness :
    ((∃ i ∈ nnTopK badStore "q" 1, ∃ id o,
        pyDictGet badStore.index_to_docstore_id i = some id ∧
        badStore.docstore.search id = .other o) →
      ∃ id, similarity_search badStore "q" 1 =
        .error (.documentNotFound id)) ∧
    ((∀ i ∈ nnTopK badStore "q" 1,
        ∃ id, pyDictGet badStore.index_to_docstore_id i = some id ∧
          badStore.docstore.search id = .doc (gBad i)) →
      similarity_search badStore "q" 1 = .ok ((nnTopK badStore "q" 1).map gBad)) :=
  similarity_search_notFound_or_resolved badStore "q" 1 gBad (by decide)
    (fun i hi => by
      have hsel : nnTopK badStore "q" 1 = [0] := by
        unfold nnTopK argsort
        rw [show List.range (badStore.index.map
          (fun r => sqdist r (badStore.embedding_function "q"))).length = [0] from rfl]
        rw [List.mergeSort_singleton]
        rfl
      rw [hsel] at hi
      have h0 : i = 0 := List.mem_singleton.mp hi
      subst h0
      exact ⟨"0", rfl⟩)

/-- With no metadata provided, the document loop builds one document per
text, in order, each with empty metadata. -/
theorem buildDocumentsFrom_none : ∀ (i : Nat) (ts : List String),
    buildDocumentsFrom none i ts = .ok (ts.map (fun t => (⟨t, []⟩ : Document)))
  | _, [] => rfl
  | i, t :: ts => by
    simp only [buildDocumentsFrom, metadataAt, buildDocumentsFrom_none (i + 1) ts,
      List.map_cons]

/-- Mapping over `enumerate(l)` is mapping the index over `range(len(l))`,
reading the element off by position. -/
theorem enum_map_eq_range_map {α β : Type} (l : List α) (dflt : α)
    (f : Nat × α → β) :
    l.enum.map f = (List.range l.length).map (fun i => f (i, l.getD i dflt)) := by
  apply List.ext_getElem
  · simp
  · intro i h1 h2
    have hl : i < l.length := by simpa using h2
    simp only [List.getElem_map, List.getElem_range, List.getElem_enum]
    rw [List.getD_eq_getElem?_getD, List.getElem?_eq_getElem hl, Option.getD_some]

/-- Positional read of a mapped list. -/
theorem getD_map_of_lt {α β : Type} (l : List α) (f : α → β) (dflt : β)
    {i : Nat} (h : i < l.length) :
    (l.map f).getD i dflt = f (l.get ⟨i, h⟩) := by
  rw [List.getD_eq_getElem?_getD, List.getElem?_map, List.getElem?_eq_getElem h]
  rfl

/-- C8: a successful `add_texts(texts)` on a consistent store with `r`
existing rows appends the `n` embeddings as rows `r‥r+n-1` in input order,
draws exactly one fresh id per new document, returns the ids in input order
(pairwise distinct when the id supply is injective on the batch), maps row
`r+i` to the `i`-th id, and stores the `i`-th document under that id. -/
theorem add_texts_appends_rows_and_ids_in_order (s : NumpyVectorStore)
    (texts : List String) (idGen : Nat → String) (d : Nat)
    (haddable : s.docstore.addable = true)
    (hlen : pyDictLen s.index_to_docstore_id = s.index.length)
    (hne : texts ≠ [])
    (hrows : ∀ r ∈ s.index, r.length = d)
    (hwnew : ∀ t ∈ texts, (s.embedding_function t).length = d)
    (hinj : ∀ i, i < texts.length → ∀ j, j < texts.length →
      idGen i = idGen j → i = j) :
    (add_texts s (PyIterable.ofList texts) none idGen).2 =
      .ok ((List.range texts.length).map idGen) ∧
    (add_texts s (PyIterable.ofList texts) none idGen).1.index =
      s.index ++ texts.map s.embedding_function ∧
    ((List.range texts.length).map idGen).Nodup ∧
    (∀ i, i < texts.length →
      pyDictGet (add_texts s (PyIterable.ofList texts) none
        idGen).1.index_to_docstore_id (s.index.length + i) = some (idGen i)) ∧
    (∀ i (h : i < texts.length),
      (add_texts s (PyIterable.ofList texts) none idGen).1.docstore.search
        (idGen i) = .doc ⟨texts.get ⟨i, h⟩, []⟩) := by
  have hbd : buildDocuments texts none =
      .ok (texts.map (fun t => (⟨t, []⟩ : Document))) :=
    buildDocumentsFrom_none 0 texts
  have hvs : np_vstack s.index (texts.map s.embedding_function) =
      .ok (s.index ++ texts.map s.embedding_function) :=
    np_vstack_ok s.index _ d
      (fun hcontra => hne (List.map_eq_nil_iff.mp hcontra))
      hrows
      (fun v hv => by
        obtain ⟨t, ht, rfl⟩ := List.mem_map.mp hv
        exact hwnew t ht)
  have hrun : add_texts s (PyIterable.ofList texts) none idGen =
      ({ s with
          index := s.index ++ texts.map s.embedding_function
          docstore := s.docstore.add
            (((texts.map (fun t => (⟨t, []⟩ : Document))).enum.map
              (fun p => (pyDictLen s.index_to_docstore_id + p.1,
                idGen p.1, p.2))).map (fun t => (t.2.1, t.2.2)))
          index_to_docstore_id := pyDictUpdate s.index_to_docstore_id
            (((texts.map (fun t => (⟨t, []⟩ : Document))).enum.map
              (fun p => (pyDictLen s.index_to_docstore_id + p.1,
                idGen p.1, p.2))).map (fun t => (t.1, t.2.1))) },
        .ok (((texts.map (fun t => (⟨t, []⟩ : Document))).enum.map
          (fun p => (pyDictLen s.index_to_docstore_id + p.1,
            idGen p.1, p.2))).map (fun t => t.2.1))) := by
    unfold add_texts
    rw [haddable]
    simp only [Bool.not_true, Bool.false_eq_true, if_false]
    rw [show buildDocuments (PyIterable.ofList texts).pass2 none =
      .ok (texts.map (fun t => (⟨t, []⟩ : Document))) from hbd]
    rw [show np_vstack s.index
        ((PyIterable.ofList texts).pass1.map s.embedding_function) =
      .ok (s.index ++ texts.map s.embedding_function) from hvs]
  have hcollapse : ∀ {β : Type} (g : Nat × String × Document → β),
      (((texts.map (fun t => (⟨t, []⟩ : Document))).enum.map
        (fun p => (pyDictLen s.index_to_docstore_id + p.1,
          idGen p.1, p.2))).map g) =
      (List.range texts.length).map
        (fun i => g (pyDictLen s.index_to_docstore_id + i, idGen i,
          (texts.map (fun t => (⟨t, []⟩ : Document))).getD i ⟨"", []⟩)) := by
    intro β g
    rw [List.map_map,
      enum_map_eq_range_map (texts.map (fun t => (⟨t, []⟩ : Document))) ⟨"", []⟩,
      List.length_map]
    rfl
  have hnodup : ((List.range texts.length).map idGen).Nodup :=
    List.Nodup.map_on
      (fun x hx y hy hxy =>
        hinj x (List.mem_range.mp hx) y (List.mem_range.mp hy) hxy)
      (List.nodup_range texts.length)
  refine ⟨?_, ?_, hnodup, ?_, ?_⟩
  · rw [hrun]
    show Except.ok _ = _
    rw [hcollapse (fun t => t.2.1)]
  · rw [hrun]
  · intro i hilt
    rw [hrun]
    show pyDictGet (pyDictUpdate s.index_to_docstore_id _)
      (s.index.length + i) = some (idGen i)
    rw [hcollapse (fun t => (t.1, t.2.1))]
    simp only [hlen]
    apply pyDictGet_pyDictUpdate_mem
    · rw [List.map_map]
      refine List.Nodup.map_on ?_ (List.nodup_range texts.length)
      intro x hx y hy hxy
      simp only [Function.comp, Prod.mk.injEq] at hxy
      omega
    · exact List.mem_map.mpr ⟨i, List.mem_range.mpr hilt, rfl⟩
  · intro i hilt
    rw [hrun]
    show (Docstore.add s.docstore _).search (idGen i) = _
    unfold Docstore.add Docstore.search
    rw [List.map_map,
      hcollapse ((fun p => (p.1, DocstoreEntry.doc p.2)) ∘ (fun t => (t.2.1, t.2.2)))]
    rw [pyDictGet_pyDictUpdate_mem _ _ (idGen i)
      (DocstoreEntry.doc ((texts.map (fun t => (⟨t, []⟩ : Document))).getD i ⟨"", []⟩))
      (by
        rw [List.map_map]
        refine List.Nodup.map_on ?_ (List.nodup_range texts.length)
        intro x hx y hy hxy
        simp only [Function.comp, Prod.mk.injEq] at hxy
        exact hinj x (List.mem_range.mp hx) y (List.mem_range.mp hy) hxy
      )
      (List.mem_map.mpr ⟨i, List.mem_range.mpr hilt, rfl⟩)]
    rw [Option.getD_some, getD_map_of_lt texts _ _ hilt]

/-- Witness for C8: adding `["a", "b"]` to the one-row seed store. -/
theorem add_texts_appends_rows_and_ids_in_order_witness :
    (add_texts seedStore (PyIterable.ofList ["a", "b"]) none strIdGen).2 =
      .ok ((List.range (["a", "b"] : List String).length).map strIdGen) ∧
    (add_texts seedStore (PyIterable.ofList ["a", "b"]) none strIdGen).1.index =
      seedStore.index ++ (["a", "b"] : List String).map seedStore.embedding_function ∧
    ((List.range (["a", "b"] : List String).length).map strIdGen).Nodup ∧
    (∀ i, i < (["a", "b"] : List String).length →
      pyDictGet (add_texts seedStore (PyIterable.ofList ["a", "b"]) none
        strIdGen).1.index_to_docstore_id (seedStore.index.length + i) =
        some (strIdGen i)) ∧
    (∀ i (h : i < (["a", "b"] : List String).length),
      (add_texts seedStore (PyIterable.ofList ["a", "b"]) none
        strIdGen).1.docstore.search (strIdGen i) =
        .doc ⟨(["a", "b"] : List String).get ⟨i, h⟩, []⟩) :=
  add_texts_appends_rows_and_ids_in_order seedStore ["a", "b"] strIdGen 1
    rfl rfl (by decide) (by decide) (by decide) (by decide)

/-- C10: `similarity_search` is deterministic: two calls with identical
store state, query and `k` (no intervening `add_texts`, so the state is the
same) return identical results.  The embedding is a pure function of the
store state because the source method reads only `self` fields and calls no
source of nondeterminism (`uuid` is used only in `add_texts`). -/
theorem similarity_search_deterministic (s s' : NumpyVectorStore)
    (q q' : String) (k k' : Nat) (hs : s = s') (hq : q = q') (hk : k = k') :
    similarity_search s q k = similarity_search s' q' k' := by
  subst hs; subst hq; subst hk; rfl

/-- Witness for C10: two identical calls on the concrete two-row store. -/
theorem similarity_search_deterministic_witness :
    similarity_search store2 "a" 2 = similarity_search store2 "a" 2 :=
  similarity_search_deterministic store2 store2 "a" "a" 2 2 rfl rfl rfl
